import Mathlib

/-!
Verification of the Notion→Telegram webhook relay
(`webhook_server_fixed_properties.py`, `notion_integration.py`,
`telegram_client.py`) against its natural-language specification.

Strings manipulated by the Python code are modelled as `List Char`
(Python `str` is a sequence of Unicode code points); UTF-8 byte counts
(`len(s.encode('utf-8'))` in the source) are computed with `Char.utf8Size`.
External API calls (Notion client, Telegram bot) are modelled as oracle
fields of explicit environment structures; a call that the source wraps in
`try/except` and that can raise is modelled with `Except`, a call whose
Python implementation already swallows its own exceptions is modelled with
a total function (`Option`/plain result), mirroring where each `try` sits
in the source.
-/

namespace NotionINT

/-- UTF-8 byte length of a code-point sequence: models Python
`len(s.encode('utf-8'))`. -/
def utf8Len (s : List Char) : Nat :=
  (s.map Char.utf8Size).sum

/-- Python slice `s[:n]` for an `int` bound `n`, including the negative
case: `s[:n]` with `n < 0` keeps `max(len(s) + n, 0)` leading elements. -/
def pySliceTo (n : Int) (s : List Char) : List Char :=
  if 0 ≤ n then s.take n.toNat else s.take (s.length - (-n).toNat)

/-- Split a string at its first colon, if any (the single step of Python
`str.split(':', maxsplit)`). -/
def splitOnceColon : List Char → Option (List Char × List Char)
  | [] => none
  | c :: rest =>
    if c = ':' then some ([], rest)
    else
      match splitOnceColon rest with
      | none => none
      | some (a, b) => some (c :: a, b)

/-- Python `s.split(':', 2)`: at most two splits, hence at most three
parts; the third part keeps any further colons. -/
def pySplitColon2 (s : List Char) : List (List Char) :=
  match splitOnceColon s with
  | none => [s]
  | some (a, b) =>
    match splitOnceColon b with
    | none => [a, b]
    | some (c, d) => [a, c, d]

/-- The fixed part `f"status:{page_id}:"` of a status button's
`callback_data` (webhook_server_fixed_properties.py, lines 471/479). -/
def callbackHead (page_id : List Char) : List Char :=
  "status:".data ++ page_id ++ [':']

/-- `callback_data` built by the notifier for one status button
(webhook_server_fixed_properties.py, lines 471–482): the raw
concatenation `f"status:{page_id}:{status}"`; when its UTF-8 encoding
exceeds 64 bytes the status part is cut by the Python slice
`status[:64 - len(f"status:{page_id}:".encode('utf-8'))]` — a slice by
code points whose bound is a byte budget. -/
def encodeCallback (page_id status : List Char) : List Char :=
  let callback := callbackHead page_id ++ status
  if utf8Len callback > 64 then
    let maxStatusLen : Int := (64 : Int) - (utf8Len (callbackHead page_id) : Int)
    callbackHead page_id ++ pySliceTo maxStatusLen status
  else
    callback

/-- Decoding in `handle_callback` (webhook_server_fixed_properties.py,
lines 627–636): the data must start with `"status:"`, then
`data.split(':', 2)` must yield exactly 3 parts; part 1 is the page id
and part 2 the status name. -/
def decodeCallback (data : List Char) : Option (List Char × List Char) :=
  if "status:".data.isPrefixOf data then
    match pySplitColon2 data with
    | [_, b, c] => some (b, c)
    | _ => none
  else
    none

theorem splitOnceColon_append (a b : List Char) (h : ':' ∉ a) :
    splitOnceColon (a ++ ':' :: b) = some (a, b) := by
  induction a with
  | nil => simp [splitOnceColon]
  | cons c rest ih =>
    have hc : c ≠ ':' := fun hc => h (hc ▸ List.mem_cons_self c rest)
    have hrest : ':' ∉ rest := fun hm => h (List.mem_cons_of_mem c hm)
    simp [splitOnceColon, hc, ih hrest]

/-- Claim C1: for every status button identifier built by the notifier as
`"status:" + page_id + ":" + status` whose UTF-8 encoding fits within 64
bytes, the callback handler's decoding (`split(':', 2)` into exactly 3
parts) recovers exactly the original page id and status name, provided the
page id contains no colon — even when the status name itself contains
colons. -/
theorem callback_roundtrip_within_limit (pid st : List Char) (h1 : ':' ∉ pid)
    (h2 : utf8Len (callbackHead pid ++ st) ≤ 64) :
    decodeCallback (encodeCallback pid st) = some (pid, st) := by
  have hnot : ¬ utf8Len (callbackHead pid ++ st) > 64 := by omega
  have henc : encodeCallback pid st = callbackHead pid ++ st := by
    simp [encodeCallback, hnot]
  have hcolon : "status:".data = "status".data ++ [':'] := by decide
  have hshape : callbackHead pid ++ st = "status".data ++ ':' :: (pid ++ ':' :: st) := by
    simp [callbackHead, hcolon, List.append_assoc]
  have hpre : "status:".data.isPrefixOf (callbackHead pid ++ st) = true := by
    rw [List.isPrefixOf_iff_prefix]
    have : callbackHead pid ++ st = "status:".data ++ (pid ++ [':'] ++ st) := by
      simp [callbackHead, List.append_assoc]
    rw [this]
    exact List.prefix_append _ _
  rw [henc, decodeCallback, if_pos hpre, hshape, pySplitColon2,
    splitOnceColon_append _ _ (by decide)]
  simp [splitOnceColon_append _ _ h1]

/-- Witness for C1 at a concrete input whose status name contains both a
colon and a space: the identifier is 29 UTF-8 bytes and round-trips. -/
theorem callback_roundtrip_within_limit_witness :
    (':' ∉ "a1b2c3".data) ∧
    utf8Len (callbackHead "a1b2c3".data ++ "In progress: QA".data) ≤ 64 ∧
    decodeCallback (encodeCallback "a1b2c3".data "In progress: QA".data) =
      some ("a1b2c3".data, "In progress: QA".data) :=
  ⟨by decide, by decide,
    callback_roundtrip_within_limit "a1b2c3".data "In progress: QA".data
      (by decide) (by decide)⟩

/-- Claim C3 (failing input): the notifier's truncation slices the status
by code points (`status[:max_status_len]`) although `max_status_len` is a
byte budget, so for the page id `"p"` and a status of thirty copies of the
two-byte character `'я'` the "truncated" identifier still measures 69 UTF-8
bytes — exceeding the 64-byte limit the code itself documents. -/
theorem truncated_callback_exceeds_limit :
    64 < utf8Len (encodeCallback "p".data (List.replicate 30 'я')) ∧
    utf8Len (encodeCallback "p".data (List.replicate 30 'я')) = 69 ∧
    utf8Len (callbackHead "p".data ++ List.replicate 30 'я') > 64 := by
  decide

/-! ## Verification GET handlers (webhook_server_fixed_properties.py) -/

/-- Python truthiness of an optional query-parameter string: `None` and
`""` are falsy. -/
def pyTruthy (o : Option String) : Bool :=
  match o with
  | some s => !s.isEmpty
  | none => false

/-- Python `a or b` on optional strings: yields `a` when truthy, else `b`
(even when `b` is falsy). -/
def pyOrOpt (a b : Option String) : Option String :=
  if pyTruthy a then a else b

/-- Response of a verification GET handler: either the JSON envelope
`{"challenge": token}` or the no-token error branch (HTTP 400 on
`/notion-webhook`, an error JSON on `/webhook/notion`). -/
inductive VerResponse where
  | challengeEcho (token : String)
  | noToken
  deriving DecidableEq

/-- `notion_webhook_verification` (GET `/notion-webhook`, lines 863–905):
`verification_token = params.get("verification") or params.get("challenge")`,
echoed as `{"challenge": token}` when truthy, else a 400 error. -/
def notion_webhook_verification (verification challenge : Option String) :
    VerResponse :=
  match pyOrOpt verification challenge with
  | none => .noToken
  | some t => if t.isEmpty then .noToken else .challengeEcho t

/-- `webhook_verification` (GET `/webhook/notion`, lines 835–849):
`token = challenge or verification`, echoed as `{"challenge": token}` when
truthy, else an error JSON. -/
def webhook_verification (challenge verification : Option String) :
    VerResponse :=
  match pyOrOpt challenge verification with
  | none => .noToken
  | some t => if t.isEmpty then .noToken else .challengeEcho t

/-- Claim C2 (counterexample): a GET request carrying the `verification`
parameter with the empty-string token is answered by the error branch, not
by `{"challenge": ""}` — Python truthiness drops the empty token, so the
claimed identity fails at the empty string on both handlers. -/
theorem verification_empty_token_not_echoed :
    notion_webhook_verification (some "") none = VerResponse.noToken ∧
    notion_webhook_verification (some "") none ≠ VerResponse.challengeEcho "" ∧
    webhook_verification (some "") none = VerResponse.noToken := by
  refine ⟨rfl, ?_, rfl⟩
  intro h
  exact VerResponse.noConfusion h

/-- Claim C2 (amended): for every verification GET request carrying a
NON-EMPTY `verification` or `challenge` query parameter, the response is
the JSON object whose `challenge` field equals the supplied token exactly,
on both verification endpoints. -/
theorem verification_echo_nonempty_token (t : String) (other : Option String)
    (h : t ≠ "") :
    notion_webhook_verification (some t) other = VerResponse.challengeEcho t ∧
    notion_webhook_verification none (some t) = VerResponse.challengeEcho t ∧
    webhook_verification (some t) other = VerResponse.challengeEcho t ∧
    webhook_verification none (some t) = VerResponse.challengeEcho t := by
  have hne : t.isEmpty = false := by
    rw [Bool.eq_false_iff]
    intro hc
    exact h ((String.isEmpty_iff t).mp hc)
  refine ⟨?_, ?_, ?_, ?_⟩ <;>
    simp [notion_webhook_verification, webhook_verification, pyOrOpt, pyTruthy, hne]

/-- Witness for the amended C2 at the concrete token `"tok123"`. -/
theorem verification_echo_nonempty_token_witness :
    notion_webhook_verification (some "tok123") none =
      VerResponse.challengeEcho "tok123" :=
  (verification_echo_nonempty_token "tok123" none (by decide)).1

/-! ## Callback status validation (handle_callback, lines 654–684)

The handler compares `avail_status.lower() == status_name.lower()`.
`str.lower()` is CPython runtime-library code, not code of this
repository, and its full Unicode case mapping is context-sensitive
(a capital sigma lowers differently at the end of a word), so — like the
vendor SDK calls — it is modelled as an external function: a parameter
`lower` mapping a whole character sequence to its lowercase form. The
claim's theorem quantifies over every such function and therefore holds
in particular for CPython's; the witnesses instantiate `lower` with
`lowerAsciiCyrillic`, which provably agrees with CPython on ASCII and
basic-Cyrillic strings (this repository's languages). -/

/-- Validation outcome of a status callback: `applied v` means
`update_page_property` is invoked with the exactly-cased value `v`;
`rejected` is the branch that answers the user with a transient
`"Статус не найден"` alert and returns before any write. -/
inductive CallbackOutcome where
  | applied (value : String)
  | rejected
  deriving DecidableEq

/-- Status-name resolution in `handle_callback` (lines 659–676): keep the
requested name when it is among the available options, otherwise take the
first available option whose lowercasing (`lower`, modelling
`str.lower()`) matches; `none` means rejection. -/
def resolveStatus (lower : List Char → List Char) (status_name : String)
    (available : List String) : Option String :=
  if status_name ∈ available then some status_name
  else available.find? (fun a => lower a.data == lower status_name.data)

/-- The handler's decision after resolution: apply the resolved name or
reject without writing. -/
def validateRequestedStatus (lower : List Char → List Char)
    (status_name : String) (available : List String) : CallbackOutcome :=
  match resolveStatus lower status_name available with
  | some v => .applied v
  | none => .rejected

/-- CPython `str.lower()` restricted to strings of ASCII and basic
Cyrillic characters: on these code points the Unicode lowercase mapping
is context-free and one-to-one — `A`–`Z` and `А`–`Я` add 0x20 and `Ё`
maps to `ё` — so this function agrees with `str.lower()` on that domain.
It instantiates the `lower` parameter in the C4 witnesses. -/
def lowerAsciiCyrillic (s : List Char) : List Char :=
  s.map fun c =>
    if 'A' ≤ c ∧ c ≤ 'Z' then Char.ofNat (c.toNat + 32)
    else if 'А' ≤ c ∧ c ≤ 'Я' then Char.ofNat (c.toNat + 32)
    else if c = 'Ё' then 'ё'
    else c

/-- Claim C4: for every lowercasing function (hence for CPython's
`str.lower()`): when the requested status is absent from the current
valid names, the handler applies the first case-insensitive match in
list order (a valid, exactly-cased name) if one exists, and otherwise
rejects with no document write. -/
theorem case_insensitive_status_resolution (lower : List Char → List Char)
    (requested : String) (available : List String)
    (habs : requested ∉ available) :
    (∀ m, available.find?
        (fun a => lower a.data == lower requested.data) = some m →
      validateRequestedStatus lower requested available =
        CallbackOutcome.applied m ∧
      m ∈ available ∧ lower m.data = lower requested.data ∧
      ∃ pre suf, available = pre ++ m :: suf ∧
        ∀ x ∈ pre, lower x.data ≠ lower requested.data) ∧
    (available.find? (fun a => lower a.data == lower requested.data) = none →
      validateRequestedStatus lower requested available =
        CallbackOutcome.rejected) := by
  constructor
  · intro m hm
    refine ⟨?_, List.mem_of_find?_eq_some hm, ?_, ?_⟩
    · simp [validateRequestedStatus, resolveStatus, habs, hm]
    · have := List.find?_some hm
      simpa using this
    · rw [List.find?_eq_some] at hm
      obtain ⟨hp, as, bs, heq, hprev⟩ := hm
      refine ⟨as, bs, heq, ?_⟩
      intro x hx hlow
      have := hprev x hx
      simp [hlow] at this
  · intro hnone
    simp [validateRequestedStatus, resolveStatus, habs, hnone]

/-- Witness for C4, with `lower` instantiated on its provably-faithful
domain: the claim's concrete example — valid statuses
`["Todo", "Doing", "Done"]` and the wrong-case request `"doing"` resolve
to applying exactly `"Doing"` — and its Cyrillic counterpart, where the
request `"готово"` resolves to applying exactly `"Готово"`. -/
theorem case_insensitive_status_resolution_witness :
    (validateRequestedStatus lowerAsciiCyrillic "doing"
        ["Todo", "Doing", "Done"] = CallbackOutcome.applied "Doing" ∧
      "doing" ∉ ["Todo", "Doing", "Done"]) ∧
    (validateRequestedStatus lowerAsciiCyrillic "готово"
        ["В работе", "Готово"] = CallbackOutcome.applied "Готово" ∧
      "готово" ∉ ["В работе", "Готово"]) :=
  ⟨⟨((case_insensitive_status_resolution lowerAsciiCyrillic "doing"
      ["Todo", "Doing", "Done"] (by decide)).1 "Doing" (by decide)).1,
    by decide⟩,
    ⟨((case_insensitive_status_resolution lowerAsciiCyrillic "готово"
      ["В работе", "Готово"] (by decide)).1 "Готово" (by decide)).1,
    by decide⟩⟩

/-! ## Message edit on status change (handle_callback, lines 689–714)

The handler rewrites the notification text with
`re.sub(r'🔹 <b>Status:</b> .+', f'🔹 <b>Status:</b> {status_name}', message_text)`
and re-sends it with the original `reply_markup`. The regex scanner is
modelled by a left-to-right scan: at each position, if the literal marker
matches and at least one following non-newline character exists, the
marker plus the maximal non-newline run is replaced and scanning resumes
after the match; otherwise the scan advances one character. `re.sub`
replaces every such match, not only the first. The model inserts the
replacement text verbatim, which coincides with Python's template
expansion exactly when the status name contains no backslash. The scanner
carries explicit fuel so it stays kernel-computable; one unit of fuel per
consumed character always suffices. -/

/-- The literal part of the status-line pattern `🔹 <b>Status:</b> .+`. -/
def statusLineMarker : List Char := "🔹 <b>Status:</b> ".data

/-- Fueled scan of `re.sub` for the status-line pattern (see section
comment); `fuel ≥ s.length` makes the fuel-exhausted branch unreachable. -/
def reSubStatusGo (repl : List Char) : Nat → List Char → List Char
  | _, [] => []
  | 0, c :: rest => c :: rest
  | fuel + 1, c :: rest =>
    if statusLineMarker.isPrefixOf (c :: rest) then
      if (((c :: rest).drop statusLineMarker.length).takeWhile (· ≠ '\n')).isEmpty then
        c :: reSubStatusGo repl fuel rest
      else
        statusLineMarker ++ repl ++
          reSubStatusGo repl fuel
            (((c :: rest).drop statusLineMarker.length).dropWhile (· ≠ '\n'))
    else c :: reSubStatusGo repl fuel rest

/-- `re.sub(r'🔹 <b>Status:</b> .+', '🔹 <b>Status:</b> ' + repl, s)` for
replacement text free of backslashes. -/
def reSubStatus (repl s : List Char) : List Char := reSubStatusGo repl s.length s

/-- The message edit of `handle_callback`: rewrite the status line(s) in
the text and keep the original `reply_markup` object. -/
def edit_status_message {α : Type} (status_name : String) (msg : List Char × α) :
    List Char × α :=
  (reSubStatus status_name.data msg.1, msg.2)

/-- The status-line pattern matches `s` at position `i`: the literal
marker is a prefix of `s.drop i` and is followed by at least one
non-newline character. -/
def matchAtB (s : List Char) (i : Nat) : Bool :=
  statusLineMarker.isPrefixOf (s.drop i) &&
    !(((s.drop i).drop statusLineMarker.length).takeWhile (· ≠ '\n')).isEmpty

/-- Propositional form of `matchAtB`. -/
def MatchAt (s : List Char) (i : Nat) : Prop := matchAtB s i = true

instance matchAtDec (s : List Char) (i : Nat) : Decidable (MatchAt s i) := by
  unfold MatchAt
  infer_instance

theorem matchAt_lt {s : List Char} {i : Nat} (h : MatchAt s i) : i < s.length := by
  by_contra hge
  have hdrop : s.drop i = [] := List.drop_eq_nil_of_le (by omega)
  have hfalse : statusLineMarker.isPrefixOf ([] : List Char) = false := by decide
  simp [MatchAt, matchAtB, hdrop, hfalse] at h

theorem matchAt_cons_succ (c : Char) (s : List Char) (i : Nat) :
    MatchAt (c :: s) (i + 1) ↔ MatchAt s i := by
  simp [MatchAt, matchAtB, List.drop_succ_cons]

theorem matchAt_zero (s : List Char) :
    MatchAt s 0 ↔ (statusLineMarker.isPrefixOf s = true ∧
      ((s.drop statusLineMarker.length).takeWhile (· ≠ '\n')).isEmpty = false) := by
  simp [MatchAt, matchAtB]

theorem matchAt_drop (s : List Char) (m k : Nat) :
    MatchAt (s.drop m) k ↔ MatchAt s (m + k) := by
  simp [MatchAt, matchAtB, List.drop_drop]

theorem dropWhile_eq_drop_len (l : List Char) (p : Char → Bool) :
    l.dropWhile p = l.drop (l.takeWhile p).length :=
  calc l.dropWhile p
      = (l.takeWhile p ++ l.dropWhile p).drop (l.takeWhile p).length := by
        rw [List.drop_left]
    _ = l.drop (l.takeWhile p).length := by rw [List.takeWhile_append_dropWhile]

/-- A text with no occurrence of the status-line pattern passes through
the substitution unchanged. -/
theorem go_no_match (repl : List Char) :
    ∀ (fuel : Nat) (s : List Char), s.length ≤ fuel → (∀ i, ¬ MatchAt s i) →
      reSubStatusGo repl fuel s = s := by
  intro fuel
  induction fuel with
  | zero =>
    intro s hs _
    have : s = [] := List.length_eq_zero.mp (Nat.le_zero.mp hs)
    subst this
    rfl
  | succ fuel ih =>
    intro s hs h
    match s with
    | [] => rfl
    | c :: rest =>
      have hlen : rest.length ≤ fuel := by
        simp only [List.length_cons] at hs
        omega
      have hshift : ∀ i, ¬ MatchAt rest i := fun i hi =>
        h (i + 1) ((matchAt_cons_succ c rest i).mpr hi)
      by_cases hp : statusLineMarker.isPrefixOf (c :: rest)
      · have hrun :
            (((c :: rest).drop statusLineMarker.length).takeWhile (· ≠ '\n')).isEmpty = true := by
          by_contra hrun
          exact h 0 ((matchAt_zero (c :: rest)).mpr ⟨hp, Bool.eq_false_iff.mpr hrun⟩)
        simp only [reSubStatusGo, if_pos hp, hrun, if_true]
        rw [ih rest hlen hshift]
      · simp only [reSubStatusGo, if_neg hp]
        rw [ih rest hlen hshift]

/-- When the status-line pattern occurs in `s` only at position `i`, the
substitution replaces exactly the marker and its non-newline run at `i`
and leaves every other character in place. -/
theorem go_unique (repl : List Char) :
    ∀ (i fuel : Nat) (s : List Char), s.length ≤ fuel → MatchAt s i →
      (∀ j, MatchAt s j → j = i) →
      reSubStatusGo repl fuel s =
        s.take i ++ statusLineMarker ++ repl ++
          ((s.drop (i + statusLineMarker.length)).dropWhile (· ≠ '\n')) := by
  intro i
  induction i with
  | zero =>
    intro fuel s hs hm huniq
    have hpos : 0 < s.length := matchAt_lt hm
    match fuel, s with
    | _, [] => simp at hpos
    | 0, c :: rest => simp at hs
    | fuel + 1, c :: rest =>
      obtain ⟨hp, hrun⟩ := (matchAt_zero (c :: rest)).mp hm
      simp only [reSubStatusGo, if_pos hp, hrun, Bool.false_eq_true, if_false,
        List.take_zero, List.nil_append, Nat.zero_add]
      congr 1
      apply go_no_match
      · rw [dropWhile_eq_drop_len, List.drop_drop, List.length_drop]
        have h3 : 0 < statusLineMarker.length := by decide
        simp only [List.length_cons] at hs ⊢
        omega
      · intro k hk
        rw [dropWhile_eq_drop_len, List.drop_drop] at hk
        rw [matchAt_drop] at hk
        have := huniq _ hk
        have h3 : 0 < statusLineMarker.length := by decide
        omega
  | succ i ih =>
    intro fuel s hs hm huniq
    have hpos : 0 < s.length := by
      have := matchAt_lt hm
      omega
    match fuel, s with
    | _, [] => simp at hpos
    | 0, c :: rest => simp at hs
    | fuel + 1, c :: rest =>
      have hlen : rest.length ≤ fuel := by
        simp only [List.length_cons] at hs
        omega
      have hm' : MatchAt rest i := (matchAt_cons_succ c rest i).mp hm
      have huniq' : ∀ j, MatchAt rest j → j = i := by
        intro j hj
        have := huniq (j + 1) ((matchAt_cons_succ c rest j).mpr hj)
        omega
      have hnot0 : ¬ MatchAt (c :: rest) 0 := by
        intro h0
        have := huniq 0 h0
        omega
      have harith : i + 1 + statusLineMarker.length = i + statusLineMarker.length + 1 := by
        omega
      by_cases hp : statusLineMarker.isPrefixOf (c :: rest)
      · have hrun :
            (((c :: rest).drop statusLineMarker.length).takeWhile (· ≠ '\n')).isEmpty = true := by
          by_contra hr
          exact hnot0 ((matchAt_zero _).mpr ⟨hp, Bool.eq_false_iff.mpr hr⟩)
        simp only [reSubStatusGo, if_pos hp, hrun, if_true]
        rw [ih fuel rest hlen hm' huniq', harith, List.drop_succ_cons]
        simp [List.take_succ_cons, List.append_assoc]
      · simp only [reSubStatusGo, if_neg hp]
        rw [ih fuel rest hlen hm' huniq', harith, List.drop_succ_cons]
        simp [List.take_succ_cons, List.append_assoc]

/-- Claim C5 (counterexample): `re.sub` replaces every match, so for a
message containing two status lines the edit rewrites both — the result
differs from the original outside any single replaced status line, and
the button layout alone is preserved. -/
theorem double_status_line_both_replaced :
    edit_status_message "Done"
        ("🔹 <b>Status:</b> A\nmid\n🔹 <b>Status:</b> B".data, (0 : Nat)) =
      ("🔹 <b>Status:</b> Done\nmid\n🔹 <b>Status:</b> Done".data, (0 : Nat)) ∧
    ("🔹 <b>Status:</b> Done\nmid\n🔹 <b>Status:</b> Done".data : List Char) ≠
      "🔹 <b>Status:</b> Done\nmid\n🔹 <b>Status:</b> B".data ∧
    ("🔹 <b>Status:</b> Done\nmid\n🔹 <b>Status:</b> Done".data : List Char) ≠
      "🔹 <b>Status:</b> A\nmid\n🔹 <b>Status:</b> Done".data := by
  refine ⟨?_, by decide, by decide⟩
  decide

/-- Claim C5 (amended): for every message in which the status-line
pattern `🔹 <b>Status:</b> ` followed by a non-empty non-newline run
occurs at exactly one position, and every new status name containing no
backslash, the edited text equals the original with exactly that
marker-plus-run replaced by `🔹 <b>Status:</b> ` + new name; every
character before and after the replaced match and the attached button
layout are unchanged. -/
theorem status_line_edit_frame {α : Type} (status_name : String)
    (text : List Char) (markup : α) (i : Nat)
    (hm : MatchAt text i)
    (huniq : ∀ j < text.length, MatchAt text j → j = i)
    (_hrepl : '\\' ∉ status_name.data) :
    edit_status_message status_name (text, markup) =
      (text.take i ++ statusLineMarker ++ status_name.data ++
        ((text.drop (i + statusLineMarker.length)).dropWhile (· ≠ '\n')), markup) := by
  unfold edit_status_message reSubStatus
  rw [go_unique status_name.data i text.length text le_rfl hm
    (fun j hj => huniq j (matchAt_lt hj) hj)]

/-- Witness for the amended C5: a concrete message whose single status
line `Todo` is rewritten to `Done` with all other characters and the
markup object intact. -/
theorem status_line_edit_frame_witness :
    edit_status_message "Done" ("A\n🔹 <b>Status:</b> Todo\nB".data, (0 : Nat)) =
      ("A\n🔹 <b>Status:</b> Done\nB".data, (0 : Nat)) := by
  rw [status_line_edit_frame "Done" "A\n🔹 <b>Status:</b> Todo\nB".data (0 : Nat) 2
    (by decide) (by decide) (by decide)]
  decide

/-! ## Notion integration (notion_integration.py)

Pages are modelled by the parts these functions inspect: the property bag
as an association list from property name to the property's type
discriminator string, and the parent reference. `client.pages.retrieve`
and `client.databases.retrieve` are oracle fields returning `none` when
the underlying call raises (every caller wraps them in `try/except`);
`client.pages.update` may raise, modelled with `Except`. A database's
properties are modelled as an association list from property name to its
status-option names — the chain
`db_props[name].get('status', {}).get('options', [])` yields `[]` for a
non-status property, which the empty option list represents. -/

/-- Parent reference of a Notion page (`page['parent']['type']`). -/
inductive NParent where
  | databaseId (id : String)
  | pageId (id : String)
  | blockId (id : String)
  | workspace
  deriving DecidableEq

/-- A retrieved Notion page as seen by `update_page_property` and
`get_page_status_options`. -/
structure NPage where
  properties : List (String × String)
  parent : NParent
  deriving DecidableEq

/-- The four type-specific payload shapes `update_page_property` can send
to `client.pages.update` (notion_integration.py, lines 313–356):
`{"status": {"name": v}}`, `{"select": {"name": v}}`,
`{"title": [{"text": {"content": v}}]}`,
`{"rich_text": [{"text": {"content": v}}]}`, each keyed by the property
name. -/
inductive UpdateShape where
  | statusShape (property_name value : String)
  | selectShape (property_name value : String)
  | titleShape (property_name value : String)
  | richTextShape (property_name value : String)
  deriving DecidableEq

/-- Oracle for the Notion client calls used by the two functions. -/
structure NotionEnv where
  pagesRetrieve : String → Option NPage
  databasesRetrieve : String → Option (List (String × List String))
  pagesUpdate : String → UpdateShape → Except String Unit

/-- `NotionIntegration.update_page_property` (lines 286–372). The result
pairs the returned boolean with the update call issued to
`client.pages.update` (`none` = no write was attempted). -/
def update_page_property (env : NotionEnv)
    (page_id property_name property_value : String) : Bool × Option UpdateShape :=
  match env.pagesRetrieve page_id with
  | none => (false, none)
  | some page =>
    match page.properties.lookup property_name with
    | none => (false, none)
    | some prop_type =>
      let shape : Option UpdateShape :=
        if prop_type = "status" then some (.statusShape property_name property_value)
        else if prop_type = "select" then some (.selectShape property_name property_value)
        else if prop_type = "title" then some (.titleShape property_name property_value)
        else if prop_type = "rich_text" then
          some (.richTextShape property_name property_value)
        else none
      match shape with
      | none => (false, none)
      | some sh =>
        match env.pagesUpdate page_id sh with
        | .error _ => (false, some sh)
        | .ok _ => (true, some sh)

/-- Claim C7: the property update writes the type-specific shape for the
four supported property types, and rejects with `False` and no update
call for an absent property name or any other property type. -/
theorem property_update_shapes (env : NotionEnv)
    (page_id property_name property_value : String) (page : NPage)
    (hret : env.pagesRetrieve page_id = some page) :
    (page.properties.lookup property_name = none →
      update_page_property env page_id property_name property_value =
        (false, none)) ∧
    (∀ t, page.properties.lookup property_name = some t →
      (t ∉ ["status", "select", "title", "rich_text"] →
        update_page_property env page_id property_name property_value =
          (false, none)) ∧
      (t = "status" →
        (update_page_property env page_id property_name property_value).2 =
          some (.statusShape property_name property_value)) ∧
      (t = "select" →
        (update_page_property env page_id property_name property_value).2 =
          some (.selectShape property_name property_value)) ∧
      (t = "title" →
        (update_page_property env page_id property_name property_value).2 =
          some (.titleShape property_name property_value)) ∧
      (t = "rich_text" →
        (update_page_property env page_id property_name property_value).2 =
          some (.richTextShape property_name property_value))) := by
  constructor
  · intro hnone
    simp [update_page_property, hret, hnone]
  · intro t ht
    refine ⟨?_, ?_, ?_, ?_, ?_⟩
    · intro hnot
      simp only [List.mem_cons, List.not_mem_nil, or_false, not_or] at hnot
      obtain ⟨h1, h2, h3, h4⟩ := hnot
      simp [update_page_property, hret, ht, h1, h2, h3, h4]
    · intro hty
      subst hty
      cases hupd : env.pagesUpdate page_id
          (.statusShape property_name property_value) <;>
        simp [update_page_property, hret, ht, hupd]
    · intro hty
      subst hty
      cases hupd : env.pagesUpdate page_id
          (.selectShape property_name property_value) <;>
        simp [update_page_property, hret, ht, hupd]
    · intro hty
      subst hty
      cases hupd : env.pagesUpdate page_id
          (.titleShape property_name property_value) <;>
        simp [update_page_property, hret, ht, hupd]
    · intro hty
      subst hty
      cases hupd : env.pagesUpdate page_id
          (.richTextShape property_name property_value) <;>
        simp [update_page_property, hret, ht, hupd]

/-- Witness for C7: on a page with a `status`-typed `"Status"` property
and a `number`-typed `"Note"` property, updating `"Status"` issues the
status-shaped write, while an absent name and the unsupported `number`
type return `False` with no write. -/
theorem property_update_shapes_witness :
    (update_page_property
        ⟨fun pid => if pid = "pg" then
            some ⟨[("Status", "status"), ("Note", "number")], .databaseId "db"⟩
          else none,
          fun _ => none, fun _ _ => .ok ()⟩
        "pg" "Status" "Done").2 = some (UpdateShape.statusShape "Status" "Done") ∧
    update_page_property
        ⟨fun pid => if pid = "pg" then
            some ⟨[("Status", "status"), ("Note", "number")], .databaseId "db"⟩
          else none,
          fun _ => none, fun _ _ => .ok ()⟩
        "pg" "Missing" "Done" = (false, none) ∧
    update_page_property
        ⟨fun pid => if pid = "pg" then
            some ⟨[("Status", "status"), ("Note", "number")], .databaseId "db"⟩
          else none,
          fun _ => none, fun _ _ => .ok ()⟩
        "pg" "Note" "x" = (false, none) :=
  ⟨((property_update_shapes _ "pg" "Status" "Done"
      ⟨[("Status", "status"), ("Note", "number")], .databaseId "db"⟩
      (by decide)).2 "status" (by decide)).2.1 rfl,
    (property_update_shapes _ "pg" "Missing" "Done"
      ⟨[("Status", "status"), ("Note", "number")], .databaseId "db"⟩
      (by decide)).1 (by decide),
    ((property_update_shapes _ "pg" "Note" "x"
      ⟨[("Status", "status"), ("Note", "number")], .databaseId "db"⟩
      (by decide)).2 "number" (by decide)).1 (by decide)⟩

/-- `NotionIntegration.get_page_status_options` (lines 374–418): find the
status property (by given name or by searching for a `status`-typed
property), then read the option names from the parent database's schema;
every other path returns `[]`. -/
def get_page_status_options (env : NotionEnv) (page_id : String)
    (status_property_name : Option String) : List String :=
  match env.pagesRetrieve page_id with
  | none => []
  | some page =>
    let spn : Option String :=
      match status_property_name with
      | some n => some n
      | none => (page.properties.find? (fun p => p.2 == "status")).map (·.1)
    match spn with
    | none => []
    | some name =>
      match page.properties.lookup name with
      | none => []
      | some prop_type =>
        if prop_type = "status" then
          match page.parent with
          | .databaseId dbid =>
            match env.databasesRetrieve dbid with
            | none => []
            | some db_props =>
              match db_props.lookup name with
              | none => []
              | some options => options
          | _ => []
        else []

/-! ## Status keyboard built by the notifier
(webhook_server_fixed_properties.py, lines 456–508) -/

/-- One inline button: its label and its opaque `callback_data`. -/
structure TgButton where
  text : String
  callback_data : List Char
  deriving DecidableEq

/-- An inline keyboard: rows of buttons. -/
abbrev Markup := List (List TgButton)

/-- The notifier's keyboard: one button per status option, grouped two per
row (`for i in range(0, len(status_options), 2)`), each with the possibly
truncated `callback_data` of `encodeCallback`. -/
def buildStatusKeyboard (page_id : List Char) : List String → Markup
  | [] => []
  | [s] => [[⟨s, encodeCallback page_id s.data⟩]]
  | s1 :: s2 :: rest =>
    [⟨s1, encodeCallback page_id s1.data⟩, ⟨s2, encodeCallback page_id s2.data⟩] ::
      buildStatusKeyboard page_id rest

/-- The `reply_markup` attached to a notification: present exactly when
the status-option list is non-empty
(`if status_options and len(status_options) > 0`). -/
def statusMarkup (page_id : String) (opts : List String) : Option Markup :=
  if opts.length > 0 then some (buildStatusKeyboard page_id.data opts) else none

/-- Claim C10: for every page whose parent is not a database, the
status-options lookup returns `[]` — even when the page itself carries a
status-typed property — and consequently the notifier attaches no status
buttons to that page's notifications. -/
theorem non_database_parent_no_status_options (env : NotionEnv)
    (page_id : String) (page : NPage)
    (hret : env.pagesRetrieve page_id = some page)
    (hpar : ∀ dbid, page.parent ≠ NParent.databaseId dbid) :
    get_page_status_options env page_id none = [] ∧
    statusMarkup page_id (get_page_status_options env page_id none) = none := by
  have hmain : get_page_status_options env page_id none = [] := by
    obtain ⟨props, parent⟩ := page
    simp only [get_page_status_options, hret]
    cases parent with
    | databaseId dbid => exact absurd rfl (hpar dbid)
    | pageId i =>
      split
      · rfl
      · split
        · rfl
        · simp
    | blockId i =>
      split
      · rfl
      · split
        · rfl
        · simp
    | workspace =>
      split
      · rfl
      · split
        · rfl
        · simp
  exact ⟨hmain, by rw [hmain]; rfl⟩

/-- Witness for C10: a page owning a `status`-typed property but nested
under another page (`parent.type == "page_id"`) yields no status options
and no keyboard, although the database oracle would have offered
`["Todo", "Done"]`. -/
theorem non_database_parent_no_status_options_witness :
    get_page_status_options
        ⟨fun pid => if pid = "pg" then
            some ⟨[("Status", "status")], .pageId "parent1"⟩
          else none,
          fun _ => some [("Status", ["Todo", "Done"])],
          fun _ _ => .ok ()⟩
        "pg" none = [] ∧
    statusMarkup "pg"
      (get_page_status_options
        ⟨fun pid => if pid = "pg" then
            some ⟨[("Status", "status")], .pageId "parent1"⟩
          else none,
          fun _ => some [("Status", ["Todo", "Done"])],
          fun _ _ => .ok ()⟩
        "pg" none) = none :=
  non_database_parent_no_status_options _ "pg"
    ⟨[("Status", "status")], .pageId "parent1"⟩ (by decide)
    (fun dbid h => NParent.noConfusion h)

/-! ## Field extraction and message formatting
(webhook_server_fixed_properties.py, lines 178–380) -/

/-- The flat record produced by `extract_all_fields` (restricted to the
fields the formatter reads). `title` is an `Option` because a failed
extraction returns the empty dict, whose `data.get('title', 'No Title')`
read then falls back, while a present title key may carry any string. -/
structure ExtractedData where
  title : Option String
  department : String
  project : String
  tasks : String
  description : String
  status : String
  executor : String
  assigned_by : String
  deadline : String
  telegram_username : List String
  url : String
  deriving DecidableEq

/-- The record seen by the formatter when `extract_all_fields` caught an
exception and returned `{}`: every `get` yields its falsy default. -/
def emptyExtracted : ExtractedData := ⟨none, "", "", "", "", "", "", "", "", [], ""⟩

/-- `WebhookProcessor.format_enhanced_telegram_message` (lines 324–380):
fixed section order, each optional section included exactly when its
field is truthy (non-empty). -/
def format_enhanced_telegram_message (data : ExtractedData)
    (change_type : String) : String :=
  let event_text :=
    if change_type = "page.created" then "🔔 <b>NEW TASK</b>"
    else if change_type = "page.properties_updated" then "🔔 <b>TASK UPDATE</b>"
    else "🔔 <b>TASK CHANGE</b>"
  let m := event_text ++ "\n"
  let m := if data.department ≠ "" then
      m ++ "🏢 <b>Department:</b> " ++ data.department ++ "\n" else m
  let m := if data.project ≠ "" then
      m ++ "📁 <b>Project:</b> " ++ data.project ++ "\n" else m
  let m := if data.tasks ≠ "" then
      m ++ "📋 <b>Tasks:</b> " ++ data.tasks ++ "\n\n" else m
  let m := m ++ "📌 <b>Title:</b> " ++ data.title.getD "No Title" ++ "\n"
  let m := if data.description ≠ "" then
      m ++ "📝 <b>Description:</b> " ++ data.description ++ "\n\n" else m
  let m := if data.status ≠ "" then
      m ++ "🔹 <b>Status:</b> " ++ data.status ++ "\n" else m
  let m := if data.executor ≠ "" then
      m ++ "👤 <b>Executor:</b> " ++ data.executor ++ "\n" else m
  let m := if data.assigned_by ≠ "" then
      m ++ "👨‍💼 <b>Assigned by:</b> " ++ data.assigned_by ++ "\n" else m
  let m := if data.deadline ≠ "" then
      m ++ "⏰ <b>Deadline:</b> " ++ data.deadline ++ "\n" else m
  let m := if data.telegram_username ≠ [] then
      m ++ "📱 <b>Telegram:</b> " ++
        String.intercalate " " data.telegram_username ++ "\n"
    else m
  let m := if data.url ≠ "" then
      m ++ "\n🔗 <a href='" ++ data.url ++ "'>Open in Notion</a>" else m
  m

/-! ## Webhook event dispatcher
(webhook_server_fixed_properties.py, lines 382–525)

The event payload is modelled by the fields the dispatcher reads:
`type`, `entity.type`, `entity.id`, `data.parent.{type,id}` (absent keys
are `none`) and whether a `verification_token` key is present. The
downstream steps are oracles: `getPageData` models
`notion_client.get_page_data` (its own `try/except` makes it total,
returning `None` on error); `extractCore` models the body of
`extract_all_fields`, whose `try/except` the wrapper `extract_all_fields`
below reproduces; `sendCustomMessage` models the Telegram send, which can
raise (caught by `_process_page_event`'s outer `try`) or return its
boolean outcome. Every attempted outbound call is recorded in an effect
trace so "issues no notification" is expressible. -/

structure WebhookEvent where
  type : Option String
  entityType : Option String
  entityId : Option String
  dataParentType : Option String
  dataParentId : Option String
  hasVerificationToken : Bool
  deriving DecidableEq

/-- `database_id` extraction (lines 405–410): present only when
`data.parent.type == "database"`. -/
def databaseIdOf (ev : WebhookEvent) : Option String :=
  if ev.dataParentType = some "database" then ev.dataParentId else none

/-- Outbound calls attempted while processing one event. -/
inductive Effect where
  | fetchPage (id : String)
  | fetchStatusOptions (id : String)
  | sendMessage (text : String) (markup : Option Markup)
  deriving DecidableEq

/-- Oracle environment for one dispatcher run. -/
structure ProcEnv where
  notion : NotionEnv
  getPageData : String → Option NPage
  extractCore : NPage → Option String → Except String ExtractedData
  sendCustomMessage : String → Option Markup → Except String Bool

/-- `WebhookProcessor.extract_all_fields` (lines 178–218): the extraction
body wrapped in `try/except` returning `{}` on any error. -/
def extract_all_fields (env : ProcEnv) (page : NPage)
    (database_id : Option String) : ExtractedData :=
  match env.extractCore page database_id with
  | .error _ => emptyExtracted
  | .ok d => d

/-- `WebhookProcessor._process_page_event` (lines 440–525): fetch the
page (abort with `False` when it yields nothing), extract and format,
attach the status keyboard when options exist, send, and return the send
outcome; any exception in the send is caught and reported as `False`. -/
def _process_page_event (env : ProcEnv) (event_type page_id : String)
    (database_id : Option String) : Bool × List Effect :=
  match env.getPageData page_id with
  | none => (false, [.fetchPage page_id])
  | some page =>
    let data := extract_all_fields env page database_id
    let msg := format_enhanced_telegram_message data event_type
    let opts := get_page_status_options env.notion page_id none
    let markup := statusMarkup page_id opts
    match env.sendCustomMessage msg markup with
    | .error _ =>
      (false, [.fetchPage page_id, .fetchStatusOptions page_id,
        .sendMessage msg markup])
    | .ok success =>
      (success, [.fetchPage page_id, .fetchStatusOptions page_id,
        .sendMessage msg markup])

/-- The event types the dispatcher forwards (line 397). -/
def handledTypes : List String :=
  ["page.created", "page.updated", "page.properties_updated"]

/-- `WebhookProcessor.process_webhook_event` (lines 382–438): dispatch on
the event type; handled page events require `entity.type == "page"` and a
truthy `entity.id`; `page.deleted`, verification-token payloads, missing
types and everything else are dropped with `False`. -/
def process_webhook_event (env : ProcEnv) (ev : WebhookEvent) :
    Bool × List Effect :=
  match ev.type with
  | none => (false, [])
  | some t =>
    if t ∈ handledTypes then
      match ev.entityType, ev.entityId with
      | some et, some pid =>
        if et = "page" then
          if pid ≠ "" then _process_page_event env t pid (databaseIdOf ev)
          else (false, [])
        else (false, [])
      | some _, none => (false, [])
      | none, _ => (false, [])
    else if t = "page.deleted" then (false, [])
    else if ev.hasVerificationToken then (false, [])
    else (false, [])

/-- The dispatcher's forwarding guard: a handled type together with a
well-formed page entity. -/
def dispatchOkB (ev : WebhookEvent) : Bool :=
  match ev.type, ev.entityType, ev.entityId with
  | some t, some et, some pid =>
    decide (t ∈ handledTypes) && decide (et = "page") && decide (pid ≠ "")
  | _, _, _ => false

/-- Claim C6: every event that fails the dispatch guard — an unhandled or
missing type (including `page.deleted` and verification-token payloads)
or an entity that is not a page with a non-empty id — returns `False`
with an empty effect trace: no page fetch and no message send, for every
environment. -/
theorem unhandled_event_no_effects (env : ProcEnv) (ev : WebhookEvent)
    (h : dispatchOkB ev = false) :
    process_webhook_event env ev = (false, []) := by
  obtain ⟨ty, et, eid, dpt, dpi, hv⟩ := ev
  cases ty with
  | none => rfl
  | some t =>
    simp only [process_webhook_event]
    by_cases ht : t ∈ handledTypes
    · rw [if_pos ht]
      cases et with
      | none => rfl
      | some e =>
        cases eid with
        | none => rfl
        | some pid =>
          simp only [dispatchOkB, Bool.and_eq_false_iff,
            decide_eq_false_iff_not] at h
          rcases h with (h | h) | h
          · exact absurd ht h
          · simp [h]
          · simp [not_not.mp h]
    · rw [if_neg ht]
      by_cases hdel : t = "page.deleted"
      · rw [if_pos hdel]
      · rw [if_neg hdel]
        cases hv <;> rfl

/-- Witness for C6 on four concrete dropped payloads: a deletion event, a
verification-token payload, a payload without a type, and a handled type
whose entity id is empty. -/
theorem unhandled_event_no_effects_witness :
    process_webhook_event
      ⟨⟨fun _ => none, fun _ => none, fun _ _ => .ok ()⟩,
        fun _ => none, fun _ _ => .error "e", fun _ _ => .ok true⟩
      ⟨some "page.deleted", some "page", some "p1", none, none, false⟩ =
      (false, []) ∧
    process_webhook_event
      ⟨⟨fun _ => none, fun _ => none, fun _ _ => .ok ()⟩,
        fun _ => none, fun _ _ => .error "e", fun _ _ => .ok true⟩
      ⟨none, none, none, none, none, true⟩ = (false, []) ∧
    process_webhook_event
      ⟨⟨fun _ => none, fun _ => none, fun _ _ => .ok ()⟩,
        fun _ => none, fun _ _ => .error "e", fun _ _ => .ok true⟩
      ⟨some "comment.created", none, none, none, none, false⟩ = (false, []) ∧
    process_webhook_event
      ⟨⟨fun _ => none, fun _ => none, fun _ _ => .ok ()⟩,
        fun _ => none, fun _ _ => .error "e", fun _ _ => .ok true⟩
      ⟨some "page.updated", some "page", some "", none, none, false⟩ =
      (false, []) :=
  ⟨unhandled_event_no_effects _ _ (by decide),
    unhandled_event_no_effects _ _ (by decide),
    unhandled_event_no_effects _ _ (by decide),
    unhandled_event_no_effects _ _ (by decide)⟩

theorem process_page_event_true_iff (env : ProcEnv) (t pid : String)
    (dbid : Option String) :
    (_process_page_event env t pid dbid).1 = true ↔
      ∃ page, env.getPageData pid = some page ∧
        env.sendCustomMessage
          (format_enhanced_telegram_message (extract_all_fields env page dbid) t)
          (statusMarkup pid (get_page_status_options env.notion pid none)) =
          .ok true := by
  unfold _process_page_event
  cases hpd : env.getPageData pid with
  | none => simp
  | some page =>
    simp only [Option.some.injEq]
    cases hs : env.sendCustomMessage
        (format_enhanced_telegram_message (extract_all_fields env page dbid) t)
        (statusMarkup pid (get_page_status_options env.notion pid none)) with
    | error e => simp [hs]
    | ok b => cases b <;> simp [hs]

/-- Claim C8: for every event and every behaviour of the downstream steps
— including raising ones, which the model makes explicit with `Except` —
the dispatcher is a total function into a boolean: it returns `True`
exactly when the guard passes, the page fetch yields a page, and the
notification send runs without raising and reports success; every other
combination (fetch returning nothing, send raising, send reporting
failure, guard failing) returns `False`, never an exception. -/
theorem dispatcher_true_iff_send_ok (env : ProcEnv) (ev : WebhookEvent) :
    (process_webhook_event env ev).1 = true ↔
      dispatchOkB ev = true ∧
      ∃ page, env.getPageData (ev.entityId.getD "") = some page ∧
        env.sendCustomMessage
          (format_enhanced_telegram_message
            (extract_all_fields env page (databaseIdOf ev)) (ev.type.getD ""))
          (statusMarkup (ev.entityId.getD "")
            (get_page_status_options env.notion (ev.entityId.getD "") none)) =
          .ok true := by
  obtain ⟨ty, et, eid, dpt, dpi, hv⟩ := ev
  cases ty with
  | none => simp [process_webhook_event, dispatchOkB]
  | some t =>
    simp only [process_webhook_event]
    by_cases ht : t ∈ handledTypes
    · rw [if_pos ht]
      cases et with
      | none => simp [dispatchOkB]
      | some e =>
        cases eid with
        | none => simp [dispatchOkB]
        | some pid =>
          by_cases he : e = "page"
          · subst he
            by_cases hpid : pid = ""
            · subst hpid
              simp [dispatchOkB]
            · simp only [if_pos rfl, hpid, ne_eq, not_false_iff, if_true,
                process_page_event_true_iff]
              simp [dispatchOkB, ht, hpid]
          · simp [dispatchOkB, he]
    · rw [if_neg ht]
      by_cases hdel : t = "page.deleted"
      · rw [if_pos hdel]
        cases et <;> cases eid <;> simp [dispatchOkB, ht]
      · rw [if_neg hdel]
        cases hv <;> cases et <;> cases eid <;> simp [dispatchOkB, ht]

/-! ## Webhook POST handler (webhook_server_fixed_properties.py) -/

/-- `WebhookProcessor.verify_signature` (lines 69–73): the declared
no-op — the body logs and returns `True` for every request body and every
signature header value. -/
def verify_signature (_body : List Nat) (_signature : String) : Bool := true

/-- Response of the POST webhook handler: the 401 raised on signature
failure, the 400 raised on a JSON parse error, or the immediate
`{"status": "ok", "message": "Event processed"}` acknowledgment. -/
inductive PostResponse where
  | unauthorized
  | badRequest
  | accepted
  deriving DecidableEq

/-- `notion_webhook_post` (POST `/notion-webhook`, lines 907–943): check
the signature (401 on failure), parse the JSON body (400 on failure),
schedule `process_webhook_event` as a background task and acknowledge
immediately. The second component is the scheduled task's payload; the
response is produced before — and therefore independently of — the
background processing outcome. -/
def notion_webhook_post (parseJson : List Nat → Option WebhookEvent)
    (body : List Nat) (signature : String) :
    PostResponse × Option WebhookEvent :=
  if verify_signature body signature = false then (.unauthorized, none)
  else
    match parseJson body with
    | none => (.badRequest, none)
    | some ev => (.accepted, some ev)

/-- Claim C9: signature verification accepts every body and signature, so
the 401 branch is unreachable, and every POST whose body parses as JSON is
acknowledged with the `{"status": "ok"}` response regardless of the
signature header (and regardless of the scheduled background processing,
which the response does not consult). -/
theorem signature_noop_post_always_ok :
    (∀ (body : List Nat) (signature : String),
      verify_signature body signature = true) ∧
    (∀ (parseJson : List Nat → Option WebhookEvent) (body : List Nat)
      (signature : String),
      (notion_webhook_post parseJson body signature).1 ≠
        PostResponse.unauthorized) ∧
    (∀ (parseJson : List Nat → Option WebhookEvent) (body : List Nat)
      (s1 s2 : String) (ev : WebhookEvent),
      parseJson body = some ev →
        notion_webhook_post parseJson body s1 = (.accepted, some ev) ∧
        notion_webhook_post parseJson body s1 =
          notion_webhook_post parseJson body s2) := by
  refine ⟨fun _ _ => rfl, ?_, ?_⟩
  · intro parseJson body signature
    unfold notion_webhook_post verify_signature
    simp only [Bool.true_eq_false, if_false]
    cases parseJson body <;> simp
  · intro parseJson body s1 s2 ev hp
    unfold notion_webhook_post verify_signature
    simp [hp]

/-- Witness for C9: a concrete parsed POST is acknowledged identically
under two different signature headers. -/
theorem signature_noop_post_always_ok_witness :
    notion_webhook_post
        (fun _ => some ⟨some "page.created", some "page", some "p1",
          none, none, false⟩) [1, 2] "sig-a" =
      (.accepted, some ⟨some "page.created", some "page", some "p1",
        none, none, false⟩) ∧
    notion_webhook_post
        (fun _ => some ⟨some "page.created", some "page", some "p1",
          none, none, false⟩) [1, 2] "sig-a" =
      notion_webhook_post
        (fun _ => some ⟨some "page.created", some "page", some "p1",
          none, none, false⟩) [1, 2] "sig-b" :=
  signature_noop_post_always_ok.2.2
    (fun _ => some ⟨some "page.created", some "page", some "p1",
      none, none, false⟩) [1, 2] "sig-a" "sig-b" _ rfl

end NotionINT
